import Mathlib

/-
Verification of the session-orchestration and log-management subsystem of
projector_installer (src/projector_installer/log_utils.py and actions.py).

File contents are modelled as lists of characters; a file that may be absent
is an `Option (List Char)`.  Python calls that can raise are modelled with
`Except String`, the error string naming the Python exception class.
-/

namespace Projector

/-- MAX_LOG_FILE_SIZE from log_utils.py: 1024 * 1024. -/
def MAX_LOG_FILE_SIZE : Nat := 1024 * 1024

/-- START_SESSION_MARK from log_utils.py. -/
def START_SESSION_MARK : String :=
  "--------------------- Projector log session start."

/-- Model of a Python text-file handle: the current on-disk content and the
current stream position. -/
structure PyTextFile where
  content : List Char
  pos : Nat
deriving Repr, DecidableEq

/-- Python open with mode w plus: truncates the file to zero length and
positions the stream at offset 0. -/
def openWPlus : PyTextFile := ⟨[], 0⟩

/-- Python seek to an absolute offset. -/
def PyTextFile.seek (h : PyTextFile) (p : Nat) : PyTextFile :=
  { h with pos := p }

/-- Python read with no argument: everything from the current position to
end of file (empty when the position is at or past end of file); the
position moves to end of file. -/
def PyTextFile.readAll (h : PyTextFile) : List Char × PyTextFile :=
  (h.content.drop h.pos, { h with pos := max h.pos h.content.length })

/-- Python truncate with no argument: cut the file at the current position. -/
def PyTextFile.truncateHere (h : PyTextFile) : PyTextFile :=
  { h with content := h.content.take h.pos }

/-- Python write at the current position: overwrite from pos onward,
extending the file as needed (only exercised here with pos at or before
end of file). -/
def PyTextFile.writeAll (h : PyTextFile) (s : List Char) : PyTextFile :=
  { content := h.content.take h.pos ++ s ++ h.content.drop (h.pos + s.length),
    pos := h.pos + s.length }

/-- restrict_log_size from log_utils.py.  The argument is the state of the
log file at the path for the given config (`none` when the file does not
exist).  The source calls `getsize(log_name)` BEFORE the `isfile` guard, so a
missing file raises OSError; when the file exists, `isfile` is True, and an
oversized file is reopened with mode w plus (which truncates it), seeked to
`size - MAX_LOG_FILE_SIZE`, read, truncated at 0, and rewritten with what was
read. -/
def restrict_log_size (file : Option (List Char)) :
    Except String (Option (List Char)) :=
  match file with
  | none => Except.error "OSError"
  | some content =>
      let size := content.length
      let isfile := true
      if isfile = true ∧ MAX_LOG_FILE_SIZE < size then
        let h := openWPlus
        let h := h.seek (size - MAX_LOG_FILE_SIZE)
        let (c, h) := h.readAll
        let h := h.seek 0
        let h := h.truncateHere
        let h := h.writeAll c
        Except.ok (some h.content)
      else
        Except.ok (some content)

end Projector

namespace Projector

/-- C1 (code bug): on every log over the ceiling, restrict_log_size leaves
the file EMPTY rather than holding the trailing ceiling bytes: the w-plus
open has already truncated the file before the trailing bytes are read, so
the read returns nothing and the rewrite writes nothing, while the trailing
ceiling bytes of the original are nonempty. -/
theorem restrict_log_size_oversized_empties (content : List Char)
    (h : MAX_LOG_FILE_SIZE < content.length) :
    restrict_log_size (some content) = Except.ok (some []) ∧
    content.drop (content.length - MAX_LOG_FILE_SIZE) ≠ [] := by
  constructor
  · simp [restrict_log_size, openWPlus, PyTextFile.seek, PyTextFile.readAll,
      PyTextFile.truncateHere, PyTextFile.writeAll, h]
  · intro hnil
    rw [List.drop_eq_nil_iff] at hnil
    have hpos : 0 < MAX_LOG_FILE_SIZE := by decide
    omega

/-- A concrete log one byte over the ceiling. -/
def oversizedLog : List Char := List.replicate (MAX_LOG_FILE_SIZE + 1) 'a'

/-- Witness for restrict_log_size_oversized_empties at a concrete
1048577-byte log. -/
theorem restrict_log_size_oversized_empties_witness :
    MAX_LOG_FILE_SIZE < oversizedLog.length ∧
    (restrict_log_size (some oversizedLog) = Except.ok (some []) ∧
      oversizedLog.drop (oversizedLog.length - MAX_LOG_FILE_SIZE) ≠ []) := by
  have h : MAX_LOG_FILE_SIZE < oversizedLog.length := by
    simp [oversizedLog]
  exact ⟨h, restrict_log_size_oversized_empties oversizedLog h⟩

/-- C8: for every existing log file whose size is at most the 1 MiB ceiling,
restrict_log_size is a no-op: the content is unchanged. -/
theorem restrict_log_size_small_noop (content : List Char)
    (h : content.length ≤ MAX_LOG_FILE_SIZE) :
    restrict_log_size (some content) = Except.ok (some content) := by
  have hnot : ¬ MAX_LOG_FILE_SIZE < content.length := Nat.not_lt.mpr h
  simp [restrict_log_size, hnot]

/-- Witness for restrict_log_size_small_noop at the concrete content
"session". -/
theorem restrict_log_size_small_noop_witness :
    ("session".data).length ≤ MAX_LOG_FILE_SIZE ∧
    restrict_log_size (some "session".data) =
      Except.ok (some "session".data) :=
  ⟨by decide, restrict_log_size_small_noop "session".data (by decide)⟩

/-- C10: when the log file does not exist, restrict_log_size raises (OSError
from getsize) instead of returning normally: the size query
`size = getsize(log_name)` runs before the `isfile(log_name)` guard. -/
theorem restrict_log_size_missing_file_raises :
    restrict_log_size (none : Option (List Char)) = Except.error "OSError" :=
  rfl

/-- The pattern `pat` occurs in `content` at index `i`: the slice of
`content` starting at `i` begins with `pat`. -/
def occursAt (content pat : List Char) (i : Nat) : Prop :=
  (content.drop i).take pat.length = pat

instance occursAt.instDecidable (content pat : List Char) (i : Nat) :
    Decidable (occursAt content pat i) :=
  inferInstanceAs (Decidable (_ = _))

/-- Scan downward from index `start` for the highest occurrence of `pat` in
`content`: the semantics of Python str.rindex restricted to start offsets. -/
def rindexFrom (content pat : List Char) : Nat → Option Nat
  | 0 => if occursAt content pat 0 then some 0 else none
  | i + 1 =>
      if occursAt content pat (i + 1) then some (i + 1)
      else rindexFrom content pat i

/-- Python content.rindex(pat) as a total function: `some` of the highest
occurrence index, `none` when absent (where str.rindex raises ValueError). -/
def pyRindex (content pat : List Char) : Option Nat :=
  rindexFrom content pat content.length

/-- dump_last_log_session from log_utils.py.  The argument is the full log
content (the source seeks the handle to 0 and reads everything); the result
is what is written to stdout, or the ValueError that content.rindex raises
when the marker is absent (the source has no handler for it). -/
def dump_last_log_session (content : List Char) :
    Except String (List Char) :=
  match pyRindex content START_SESSION_MARK.data with
  | none => Except.error "ValueError"
  | some pos => Except.ok (content.drop pos)

theorem rindexFrom_some (content pat : List Char) (s m : Nat)
    (h : rindexFrom content pat s = some m) :
    occursAt content pat m ∧ m ≤ s := by
  induction s with
  | zero =>
      unfold rindexFrom at h
      split at h
      · cases h; exact ⟨by assumption, Nat.le_refl 0⟩
      · cases h
  | succ i ih =>
      unfold rindexFrom at h
      split at h
      · cases h; exact ⟨by assumption, Nat.le_refl _⟩
      · obtain ⟨h1, h2⟩ := ih h
        exact ⟨h1, Nat.le_succ_of_le h2⟩

theorem rindexFrom_complete (content pat : List Char) (s q : Nat)
    (hq : occursAt content pat q) (hqs : q ≤ s) :
    ∃ m, rindexFrom content pat s = some m ∧ q ≤ m := by
  induction s with
  | zero =>
      have : q = 0 := Nat.le_zero.mp hqs
      subst this
      exact ⟨0, by unfold rindexFrom; rw [if_pos hq], Nat.le_refl 0⟩
  | succ i ih =>
      by_cases hc : occursAt content pat (i + 1)
      · exact ⟨i + 1, by unfold rindexFrom; rw [if_pos hc], hqs⟩
      · have hqi : q ≤ i := by
          rcases Nat.lt_or_ge q (i + 1) with hlt | hge
          · exact Nat.lt_succ_iff.mp hlt
          · exfalso
            have : q = i + 1 := Nat.le_antisymm hqs hge
            subst this
            exact hc hq
        obtain ⟨m, hm, hqm⟩ := ih hqi
        exact ⟨m, by unfold rindexFrom; rw [if_neg hc]; exact hm, hqm⟩

theorem occursAt_le_length (content pat : List Char) (i : Nat)
    (hpat : 0 < pat.length) (h : occursAt content pat i) :
    i ≤ content.length := by
  have hlen : ((content.drop i).take pat.length).length = pat.length := by
    rw [h]
  rw [List.length_take, List.length_drop] at hlen
  omega

theorem mark_length_pos : 0 < START_SESSION_MARK.data.length := by decide

/-- C7: on a log containing at least two occurrences of the session-start
marker, dump_last_log_session writes exactly the content from the last
(highest-index) occurrence of the marker to end of file, and nothing
before it. -/
theorem dump_last_log_session_tail_of_last_mark (content : List Char)
    (h : ∃ i j, i ≠ j ∧ occursAt content START_SESSION_MARK.data i ∧
      occursAt content START_SESSION_MARK.data j) :
    ∃ pos, dump_last_log_session content = Except.ok (content.drop pos) ∧
      occursAt content START_SESSION_MARK.data pos ∧
      ∀ q, occursAt content START_SESSION_MARK.data q → q ≤ pos := by
  obtain ⟨i, _, _, hi, _⟩ := h
  have hile : i ≤ content.length :=
    occursAt_le_length content _ i mark_length_pos hi
  obtain ⟨m, hm, _⟩ :=
    rindexFrom_complete content START_SESSION_MARK.data content.length i hi hile
  refine ⟨m, ?_, ?_, ?_⟩
  · unfold dump_last_log_session pyRindex
    rw [hm]
  · exact (rindexFrom_some content _ content.length m hm).1
  · intro q hq
    have hqle : q ≤ content.length :=
      occursAt_le_length content _ q mark_length_pos hq
    obtain ⟨m2, hm2, hqm2⟩ :=
      rindexFrom_complete content START_SESSION_MARK.data content.length q hq hqle
    rw [hm] at hm2
    cases hm2
    exact hqm2

/-- A concrete log holding two sentinel-marked sessions back to back. -/
def twoSessionLog : List Char :=
  START_SESSION_MARK.data ++ START_SESSION_MARK.data ++ " tail".data

/-- Witness for dump_last_log_session_tail_of_last_mark on a concrete log
with marker occurrences at 0 and at the marker length. -/
theorem dump_last_log_session_tail_of_last_mark_witness :
    (∃ i j, i ≠ j ∧ occursAt twoSessionLog START_SESSION_MARK.data i ∧
      occursAt twoSessionLog START_SESSION_MARK.data j) ∧
    (∃ pos, dump_last_log_session twoSessionLog =
        Except.ok (twoSessionLog.drop pos) ∧
      occursAt twoSessionLog START_SESSION_MARK.data pos ∧
      ∀ q, occursAt twoSessionLog START_SESSION_MARK.data q → q ≤ pos) := by
  have h : ∃ i j, i ≠ j ∧ occursAt twoSessionLog START_SESSION_MARK.data i ∧
      occursAt twoSessionLog START_SESSION_MARK.data j :=
    ⟨0, START_SESSION_MARK.data.length, by decide, by decide, by decide⟩
  exact ⟨h, dump_last_log_session_tail_of_last_mark twoSessionLog h⟩

/-- C3 counterexample: on a log with no occurrence of the marker,
dump_last_log_session does not return normally: content.rindex raises
ValueError and nothing in the source catches it. -/
theorem dump_last_log_session_no_mark_counterexample :
    dump_last_log_session ("no marker here".data) =
      Except.error "ValueError" := by
  rfl

/-- C3 amended: on every log content with no occurrence of the session-start
marker, dump_last_log_session raises ValueError (from content.rindex)
instead of returning normally. -/
theorem dump_last_log_session_no_mark_raises (content : List Char)
    (h : ∀ i, i ≤ content.length →
      ¬ occursAt content START_SESSION_MARK.data i) :
    dump_last_log_session content = Except.error "ValueError" := by
  unfold dump_last_log_session
  cases hr : pyRindex content START_SESSION_MARK.data with
  | none => rfl
  | some m =>
      exfalso
      obtain ⟨hocc, hle⟩ :=
        rindexFrom_some content START_SESSION_MARK.data content.length m hr
      exact h m (occursAt_le_length content _ m mark_length_pos hocc) hocc

/-- Witness for dump_last_log_session_no_mark_raises at a concrete log with
no marker. -/
theorem dump_last_log_session_no_mark_raises_witness :
    (∀ i, i ≤ ("plain log".data).length →
      ¬ occursAt ("plain log".data) START_SESSION_MARK.data i) ∧
    dump_last_log_session ("plain log".data) = Except.error "ValueError" := by
  have h : ∀ i, i ≤ ("plain log".data).length →
      ¬ occursAt ("plain log".data) START_SESSION_MARK.data i := by decide
  exact ⟨h, dump_last_log_session_no_mark_raises ("plain log".data) h⟩

/-- is_unexpected_exit from log_utils.py: ret_code not in [0, -2]. -/
def is_unexpected_exit (ret_code : Int) : Bool :=
  decide (ret_code ∉ ([0, -2] : List Int))

/-- Observable outcome of one shutdown_log invocation: what the dump wrote
to stdout (when it ran and succeeded), whether log_file.close() was reached,
and whether an exception escaped the call. -/
structure ShutdownResult where
  dumped : Option (List Char)
  closed : Bool
  raised : Bool
deriving Repr, DecidableEq

/-- shutdown_log from log_utils.py.  On an unexpected exit code it first
runs dump_last_log_session; the source has no try/finally, so when the dump
raises (marker absent) the trailing log_file.close() is never reached and
the exception propagates. -/
def shutdown_log (ret_code : Int) (content : List Char) : ShutdownResult :=
  if is_unexpected_exit ret_code then
    match dump_last_log_session content with
    | Except.error _ => ⟨none, false, true⟩
    | Except.ok out => ⟨some out, true, false⟩
  else
    ⟨none, true, false⟩

/-- C4 counterexample: with exit code 1 and a log whose content has no
marker, shutdown_log never reaches log_file.close(): the ValueError from the
dump escapes first. -/
theorem shutdown_log_not_closed_counterexample :
    (shutdown_log 1 ("boom".data)).closed = false ∧
    (shutdown_log 1 ("boom".data)).raised = true := by
  constructor <;> rfl

/-- C4 amended: shutdown_log closes the log handle exactly once per
invocation unless the exit code is unexpected and the marker is absent from
the log, in which case the dump raises before the close: the handle is
closed if and only if the exit code is 0 or -2 or the marker occurs in the
content. -/
theorem shutdown_log_closed_iff (ret_code : Int) (content : List Char) :
    (shutdown_log ret_code content).closed = true ↔
      (ret_code = 0 ∨ ret_code = -2 ∨
        ∃ i, occursAt content START_SESSION_MARK.data i) := by
  unfold shutdown_log
  by_cases hexp : is_unexpected_exit ret_code
  · rw [if_pos hexp]
    have hne : ¬ (ret_code = 0 ∨ ret_code = -2) := by
      unfold is_unexpected_exit at hexp
      simpa using of_decide_eq_true hexp
    cases hdump : dump_last_log_session content with
    | error e =>
        simp only [show (⟨none, false, true⟩ : ShutdownResult).closed = false
          from rfl]
        constructor
        · intro hfalse; cases hfalse
        · rintro (h0 | h2 | ⟨i, hi⟩)
          · exact absurd (Or.inl h0) hne
          · exact absurd (Or.inr h2) hne
          · exfalso
            have hile : i ≤ content.length :=
              occursAt_le_length content _ i mark_length_pos hi
            obtain ⟨m, hm, _⟩ := rindexFrom_complete content
              START_SESSION_MARK.data content.length i hi hile
            unfold dump_last_log_session pyRindex at hdump
            rw [hm] at hdump
            cases hdump
    | ok out =>
        simp only [show (⟨some out, true, false⟩ : ShutdownResult).closed =
          true from rfl]
        constructor
        · intro _
          unfold dump_last_log_session at hdump
          cases hr : pyRindex content START_SESSION_MARK.data with
          | none => rw [hr] at hdump; cases hdump
          | some m =>
              exact Or.inr (Or.inr ⟨m, (rindexFrom_some content
                START_SESSION_MARK.data content.length m hr).1⟩)
        · intro _; trivial
  · rw [if_neg hexp]
    have hmem : ret_code = 0 ∨ ret_code = -2 := by
      unfold is_unexpected_exit at hexp
      have := of_decide_eq_false (Bool.of_not_eq_true hexp)
      simpa using not_not.mp this
    simp only [show (⟨none, true, false⟩ : ShutdownResult).closed = true
      from rfl]
    exact ⟨fun _ => hmem.elim Or.inl (fun h => Or.inr (Or.inl h)),
      fun _ => trivial⟩

/-- dump_logs from actions.py.  The captured stdout and stderr lines of the
terminated process are the inputs; the result is the pair of (lines appended
to the log file opened for append, lines echoed to sys.stdout).  The source
loops over [stdout_lines, stderr_lines], always writing each batch to the
log and echoing it to the console only when ret_code is not in [0, -2]. -/
def dump_logs (ret_code : Int) (stdout_lines stderr_lines : List String) :
    List String × List String :=
  List.foldl
    (fun acc lines =>
      (acc.1 ++ lines,
        if ret_code ∉ ([0, -2] : List Int) then acc.2 ++ lines else acc.2))
    ([], [])
    [stdout_lines, stderr_lines]

/-- C5: for every exit code, dump_logs appends all captured stdout and
stderr lines to the log file, and echoes the same lines to the console if
and only if the exit code is neither 0 nor -2. -/
theorem dump_logs_routing (ret_code : Int)
    (stdout_lines stderr_lines : List String) :
    (dump_logs ret_code stdout_lines stderr_lines).1 =
      stdout_lines ++ stderr_lines ∧
    (dump_logs ret_code stdout_lines stderr_lines).2 =
      (if ret_code ≠ 0 ∧ ret_code ≠ -2 then stdout_lines ++ stderr_lines
        else []) := by
  unfold dump_logs
  simp only [List.foldl_cons, List.foldl_nil, List.mem_cons,
    List.mem_singleton, List.not_mem_nil]
  constructor
  · simp
  · split_ifs with h1 h2 h2 <;> simp_all

/-- RunConfig fields consumed by get_access_urls (run_config.py holds the
full record; password fields are empty strings when unset, matching the
falsiness test `if run_config.password`). -/
structure RunConfig where
  projector_port : Nat
  password : String
  ro_password : String

/-- The base URL list built by the first half of get_access_urls in
actions.py: scheme selection, localhost prepending when 127.0.0.1 is among
the resolved addresses, and one URL per address. -/
def base_access_urls (secure : Bool) (addresses : List String) (port : Nat) :
    List String :=
  let schema := if secure then "https" else "http"
  let addresses :=
    if "127.0.0.1" ∈ addresses then "localhost" :: addresses else addresses
  addresses.map (fun address =>
    schema ++ "://" ++ address ++ ":" ++ toString port ++ "/index.html")

/-- get_access_urls from actions.py.  `secure` stands for the external call
is_secure(run_config) and `addresses` for get_local_addresses(); the token
branches mirror the source: when a password is set, every base URL gets the
primary token as a query parameter, and when the read-only password differs,
every base URL with the read-only token is appended after the primary set. -/
def get_access_urls (secure : Bool) (addresses : List String)
    (run_config : RunConfig) : List String :=
  let urls := base_access_urls secure addresses run_config.projector_port
  if run_config.password ≠ "" then
    let res := urls.map (fun x => x ++ "?token=" ++ run_config.password)
    let res :=
      if run_config.password ≠ run_config.ro_password then
        res ++ urls.map (fun x => x ++ "?token=" ++ run_config.ro_password)
      else res
    res
  else
    urls

/-- C2 counterexample: with resolved addresses [127.0.0.1, 10.0.0.5], port
9999, secure off and no tokens, the result is not the claimed two-element
list: the source prepends localhost but never removes 127.0.0.1 from the
list, so the loopback is re-listed as a raw IP. -/
theorem get_access_urls_fixed_input_counterexample :
    get_access_urls false ["127.0.0.1", "10.0.0.5"] ⟨9999, "", ""⟩ ≠
      ["http://localhost:9999/index.html",
       "http://10.0.0.5:9999/index.html"] := by
  decide

/-- C2 amended: with resolved addresses [127.0.0.1, 10.0.0.5], port 9999,
secure off and no tokens, the result is exactly the three-element list with
localhost first, followed by the loopback re-listed as a raw IP, then the
other address. -/
theorem get_access_urls_fixed_input :
    get_access_urls false ["127.0.0.1", "10.0.0.5"] ⟨9999, "", ""⟩ =
      ["http://localhost:9999/index.html",
       "http://127.0.0.1:9999/index.html",
       "http://10.0.0.5:9999/index.html"] := by
  decide

/-- C6: for every address list, port and secure flag, with primary token
"abc" and distinct read-only token "xyz", the result is every base URL
suffixed with ?token=abc followed by every base URL suffixed with
?token=xyz, order preserved within each group. -/
theorem get_access_urls_token_expansion (secure : Bool)
    (addresses : List String) (port : Nat) :
    get_access_urls secure addresses ⟨port, "abc", "xyz"⟩ =
      (base_access_urls secure addresses port).map
        (fun x => x ++ "?token=" ++ "abc") ++
      (base_access_urls secure addresses port).map
        (fun x => x ++ "?token=" ++ "xyz") := by
  unfold get_access_urls
  dsimp only
  rw [if_pos (by decide : ("abc" : String) ≠ ""),
    if_pos (by decide : ("abc" : String) ≠ "xyz")]

/-- Observable steps of do_run_config in actions.py, up to the spawn of the
child process. -/
inductive RunEvent where
  | printed (msg : String)
  | exited (code : Int)
  | spawned (script : String)
deriving Repr, DecidableEq

/-- do_run_config from actions.py, modelled as the trace of observable
events up to the Popen spawn of the launch script.  `script_isfile` stands
for path.isfile(run_script_name) and `check_ok` for check_config(run_config).
When the launch script is missing, the source prints two diagnostics and
calls sys.exit(1), which raises SystemExit and ends the trace; otherwise it
proceeds (after an optional warning) to spawn the child process, and the
later steps (URL printing, wait, dump_logs) all follow the spawn. -/
def do_run_config_trace (config_name script_name : String)
    (script_isfile : Bool) (check_ok : Bool) : List RunEvent :=
  RunEvent.printed ("Configuration name: " ++ config_name) ::
  (if ¬ script_isfile then
    [RunEvent.printed ("Cannot find file " ++ script_name),
     RunEvent.printed ("To fix, try: projector config edit " ++ config_name),
     RunEvent.exited 1]
  else
    (if ¬ check_ok then
      [RunEvent.printed
        "WARNING: run config may not correspond to autogenerated files."]
    else []) ++
    [RunEvent.spawned script_name])

/-- C9: when the launch script is missing, do_run_config reports the error,
ends by terminating the process with exit code 1, and never spawns a child
process. -/
theorem do_run_config_missing_script (config_name script_name : String)
    (check_ok : Bool) :
    RunEvent.printed ("Cannot find file " ++ script_name) ∈
      do_run_config_trace config_name script_name false check_ok ∧
    (do_run_config_trace config_name script_name false check_ok).getLast? =
      some (RunEvent.exited 1) ∧
    ∀ s, RunEvent.spawned s ∉
      do_run_config_trace config_name script_name false check_ok := by
  unfold do_run_config_trace
  refine ⟨?_, ?_, ?_⟩
  · simp
  · rfl
  · intro s
    simp

end Projector
